import Mathlib

/-!
Shallow embedding of the detection and verdict core of the Check browser
extension (content-script scoring engine, background verdict coordinator,
lifecycle supervisor, rogue-app registry), together with theorems checking
the natural-language specification against this embedding.

Conventions of the embedding:
* JavaScript numbers are modelled as exact rationals (`ℚ`); counters as `ℕ`.
* The host regex engine (`new RegExp`) and URL parser (`new URL`) are external
  libraries, modelled as oracles in `JSEnv`: `compile p ic` returns `none`
  exactly when the `RegExp` constructor throws a `SyntaxError`, otherwise the
  compiled `test` predicate; `parseOrigin u` returns `new URL(u).origin`, or
  `none` when the constructor throws.
* JavaScript exceptions are modelled with `Except`; functions that mutate
  instance state are modelled by explicit state passing.
-/

namespace Check

/-- Oracles for the JavaScript host environment (regex engine and URL parser). -/
structure JSEnv where
  compile : String → Bool → Option (String → Bool)
  parseOrigin : String → Option String

/-! ## Content script (`src/scripts/content.ts`): data model -/

/-- One entry of `primary_elements` / `secondary_elements` in the rule file. -/
structure RuleElement where
  id : String
  pattern : String
  weight : ℚ
deriving DecidableEq

/-- The `detection_thresholds` object of `m365_detection_requirements`. -/
structure DetectionThresholds where
  minimum_primary_elements : ℚ
  minimum_total_weight : ℚ
  minimum_elements_overall : ℚ
deriving DecidableEq

/-- The `m365_detection_requirements` object of the detection-rules file. -/
structure M365DetectionRequirements where
  primary_elements : List RuleElement
  secondary_elements : List RuleElement
  detection_thresholds : DetectionThresholds
deriving DecidableEq

/-- The `DetectionResult` record produced by `analyzePageForPhishing`.
The `timestamp` field (wall-clock `new Date().toISOString()`) is omitted:
it is an external clock value no claim refers to. -/
structure DetectionResult where
  isPhishing : Bool
  confidence : ℚ
  detectedElements : List String
  totalWeight : ℚ
  primaryElementsCount : ℕ
  secondaryElementsCount : ℕ
  reasons : List String
  appliedRules : List String
  severity : Option String
  url : String
deriving DecidableEq

/-! ## Content script: pattern matching helpers -/

/-- `matchesAnyPattern(url, patterns)` (content.ts:52-67): each pattern is
compiled with `new RegExp(pattern)` inside a try/catch, so an invalid pattern
is logged and skipped; the first compiling pattern whose test succeeds makes
the function return `true`. -/
def matchesAnyPattern (env : JSEnv) (url : String) : List String → Bool
  | [] => false
  | p :: rest =>
    match env.compile p false with
    | none => matchesAnyPattern env url rest
    | some test => if test url then true else matchesAnyPattern env url rest

/-- `isTrustedLoginDomain(url)` (content.ts:72-81): parse the URL, take its
origin and match it against `trustedLoginPatterns`; a URL-parse failure is
caught and yields `false`. -/
def isTrustedLoginDomain (env : JSEnv) (trustedLoginPatterns : List String)
    (url : String) : Bool :=
  match env.parseOrigin url with
  | none => false
  | some origin => matchesAnyPattern env origin trustedLoginPatterns

/-! ## Content script: the scoring loops of `analyzePageForPhishing`
(content.ts:248-266).  The loop body is
`if (element.pattern && new RegExp(element.pattern, 'i').test(pageSource))`:
an empty pattern is skipped by short-circuit, and a non-empty invalid pattern
makes the `RegExp` constructor throw (there is no try/catch around the loops,
so the exception propagates out of `analyzePageForPhishing`). -/

/-- One iteration's test: `Except.error ()` models the `SyntaxError` thrown by
`new RegExp(element.pattern, 'i')` on an invalid non-empty pattern. -/
def checkElement (env : JSEnv) (pageSource : String) (e : RuleElement) :
    Except Unit Bool :=
  if e.pattern = "" then Except.ok false
  else
    match env.compile e.pattern true with
    | none => Except.error ()
    | some test => Except.ok (test pageSource)

/-- The matching loop over one element list, accumulating the pushed ids, the
running weight and the matched-element count, and propagating a thrown
`SyntaxError`. -/
def scanElements (env : JSEnv) (pageSource : String) :
    List RuleElement → Except Unit (List String × ℚ × ℕ)
  | [] => Except.ok ([], 0, 0)
  | e :: rest =>
    match checkElement env pageSource e with
    | Except.error u => Except.error u
    | Except.ok hit =>
      match scanElements env pageSource rest with
      | Except.error u => Except.error u
      | Except.ok (ids, w, c) =>
        if hit then Except.ok (e.id :: ids, e.weight + w, c + 1)
        else Except.ok (ids, w, c)

/-- The signals accumulated by the two loops of `analyzePageForPhishing`:
`detectedElements` (primary pushes followed by secondary pushes), the total
weight, and the two counters. -/
structure ScanOutcome where
  detectedElements : List String
  totalWeight : ℚ
  primaryCount : ℕ
  secondaryCount : ℕ
deriving DecidableEq

/-- Both loops of `analyzePageForPhishing` in order: primary elements first,
then secondary elements, sharing the `detectedElements` list and the weight
accumulator. -/
def scanPage (env : JSEnv) (req : M365DetectionRequirements)
    (pageSource : String) : Except Unit ScanOutcome :=
  match scanElements env pageSource req.primary_elements with
  | Except.error u => Except.error u
  | Except.ok (pIds, pW, pCnt) =>
    match scanElements env pageSource req.secondary_elements with
    | Except.error u => Except.error u
    | Except.ok (sIds, sW, sCnt) =>
      Except.ok ⟨pIds ++ sIds, pW + sW, pCnt, sCnt⟩

/-- The candidate-login-page test of content.ts:275-277:
`primaryCount >= minimum_primary_elements && totalWeight >= minimum_total_weight
&& result.detectedElements.length >= minimum_elements_overall`. -/
def candidateTest (th : DetectionThresholds) (o : ScanOutcome) : Bool :=
  decide ((o.primaryCount : ℚ) ≥ th.minimum_primary_elements) &&
  decide (o.totalWeight ≥ th.minimum_total_weight) &&
  decide ((o.detectedElements.length : ℚ) ≥ th.minimum_elements_overall)

/-- The result record before the threshold decision: counters and lists filled
in from the loops (content.ts:225-270); `appliedRules` receives exactly the
same pushes as `detectedElements`. -/
def baseResult (o : ScanOutcome) (url : String) : DetectionResult :=
  { isPhishing := false
    confidence := 0
    detectedElements := o.detectedElements
    totalWeight := o.totalWeight
    primaryElementsCount := o.primaryCount
    secondaryElementsCount := o.secondaryCount
    reasons := []
    appliedRules := o.detectedElements
    severity := none
    url := url }

/-- The threshold decision of content.ts:272-292. -/
def buildResult (env : JSEnv) (trustedLoginPatterns : List String) (url : String)
    (th : DetectionThresholds) (o : ScanOutcome) : DetectionResult :=
  if candidateTest th o then
    if isTrustedLoginDomain env trustedLoginPatterns url then
      { baseResult o url with
        reasons := ["Microsoft 365 login page on trusted domain"] }
    else
      let conf : ℚ := min (o.totalWeight / th.minimum_total_weight) 1
      { baseResult o url with
        isPhishing := true
        confidence := conf
        reasons := ["Microsoft 365 login page detected on untrusted domain"]
        severity := some (if conf > 0.8 then "high" else "medium") }
  else
    { baseResult o url with
      reasons := ["Insufficient indicators for Microsoft 365 login page"] }

/-- The early-return result when `detectionRules?.m365_detection_requirements`
is absent (content.ts:238-241). -/
def noRulesResult (url : String) : DetectionResult :=
  { isPhishing := false
    confidence := 0
    detectedElements := []
    totalWeight := 0
    primaryElementsCount := 0
    secondaryElementsCount := 0
    reasons := ["No detection rules available"]
    appliedRules := []
    severity := none
    url := url }

/-- `analyzePageForPhishing` (content.ts:221-293), as a function of the loaded
rules, the page URL and the page markup.  `Except.error ()` is the uncaught
`SyntaxError` thrown from the element loops. -/
def analyzePageForPhishing (env : JSEnv) (trustedLoginPatterns : List String)
    (rules : Option M365DetectionRequirements) (currentUrl pageSource : String) :
    Except Unit DetectionResult :=
  match rules with
  | none => Except.ok (noRulesResult currentUrl)
  | some req =>
    match scanPage env req pageSource with
    | Except.error u => Except.error u
    | Except.ok o =>
      Except.ok (buildResult env trustedLoginPatterns currentUrl
        req.detection_thresholds o)

/-- Projection used to state concrete facts about a successful scan. -/
def getOk : Except Unit DetectionResult → DetectionResult
  | Except.ok r => r
  | Except.error _ => noRulesResult ""

/-! ## Characterization lemmas for the scoring loops -/

/-- Whether a single rule element hits the page: the boolean the loop guard
evaluates to when no exception is thrown. -/
def elementHitB (env : JSEnv) (pageSource : String) (e : RuleElement) : Bool :=
  if e.pattern = "" then false
  else
    match env.compile e.pattern true with
    | none => false
    | some test => test pageSource

theorem checkElement_ok {env : JSEnv} {src : String} {e : RuleElement} {b : Bool}
    (h : checkElement env src e = Except.ok b) : elementHitB env src e = b := by
  unfold checkElement at h
  unfold elementHitB
  split at h
  · rename_i hp
    simp only [Except.ok.injEq] at h
    simp [hp, ← h]
  · rename_i hp
    cases hc : env.compile e.pattern true with
    | none => rw [hc] at h; cases h
    | some test =>
      rw [hc] at h
      simp only [Except.ok.injEq] at h
      simp [hp, hc, h]

theorem scanElements_ok_spec (env : JSEnv) (src : String) :
    ∀ (elems : List RuleElement) (ids : List String) (w : ℚ) (c : ℕ),
      scanElements env src elems = Except.ok (ids, w, c) →
      ids = (elems.filter (elementHitB env src)).map RuleElement.id ∧
      w = ((elems.filter (elementHitB env src)).map RuleElement.weight).sum ∧
      c = (elems.filter (elementHitB env src)).length := by
  intro elems
  induction elems with
  | nil =>
    intro ids w c h
    unfold scanElements at h
    simp only [Except.ok.injEq, Prod.mk.injEq] at h
    simp [← h.1, ← h.2.1, ← h.2.2]
  | cons e rest ih =>
    intro ids w c h
    unfold scanElements at h
    cases hce : checkElement env src e with
    | error u => rw [hce] at h; cases h
    | ok hit =>
      rw [hce] at h
      cases hrest : scanElements env src rest with
      | error u => rw [hrest] at h; cases h
      | ok trip =>
        obtain ⟨ids', w', c'⟩ := trip
        rw [hrest] at h
        obtain ⟨h1, h2, h3⟩ := ih ids' w' c' hrest
        have hhit := checkElement_ok hce
        cases hit with
        | true =>
          simp only [if_true, Except.ok.injEq, Prod.mk.injEq] at h
          simp [← h.1, ← h.2.1, ← h.2.2, List.filter_cons, hhit, h1, h2, h3]
        | false =>
          simp only [Bool.false_eq_true, if_false, Except.ok.injEq,
            Prod.mk.injEq] at h
          simp [← h.1, ← h.2.1, ← h.2.2, List.filter_cons, hhit, h1, h2, h3]

theorem scanPage_ok_spec {env : JSEnv} {req : M365DetectionRequirements}
    {src : String} {o : ScanOutcome} (h : scanPage env req src = Except.ok o) :
    o.detectedElements.length = o.primaryCount + o.secondaryCount ∧
    o.detectedElements =
      (((req.primary_elements ++ req.secondary_elements).filter
        (elementHitB env src)).map RuleElement.id) ∧
    o.totalWeight =
      ((((req.primary_elements ++ req.secondary_elements).filter
        (elementHitB env src)).map RuleElement.weight)).sum := by
  unfold scanPage at h
  cases hp : scanElements env src req.primary_elements with
  | error u => rw [hp] at h; cases h
  | ok ptrip =>
    obtain ⟨pIds, pW, pCnt⟩ := ptrip
    rw [hp] at h
    cases hs : scanElements env src req.secondary_elements with
    | error u => rw [hs] at h; cases h
    | ok strip =>
      obtain ⟨sIds, sW, sCnt⟩ := strip
      rw [hs] at h
      simp only [Except.ok.injEq] at h
      obtain ⟨hp1, hp2, hp3⟩ := scanElements_ok_spec env src _ _ _ _ hp
      obtain ⟨hs1, hs2, hs3⟩ := scanElements_ok_spec env src _ _ _ _ hs
      subst h
      refine ⟨?_, ?_, ?_⟩
      · simp [hp1, hs1, hp3, hs3]
      · simp [hp1, hs1, List.filter_append]
      · simp [hp2, hs2, List.filter_append]

theorem analyze_ok_elim {env : JSEnv} {pats : List String}
    {req : M365DetectionRequirements} {url src : String} {r : DetectionResult}
    (h : analyzePageForPhishing env pats (some req) url src = Except.ok r) :
    ∃ o, scanPage env req src = Except.ok o ∧
      r = buildResult env pats url req.detection_thresholds o := by
  simp only [analyzePageForPhishing] at h
  cases hs : scanPage env req src with
  | error u => rw [hs] at h; cases h
  | ok o =>
    rw [hs] at h
    simp only [Except.ok.injEq] at h
    exact ⟨o, rfl, h.symm⟩

theorem candidateTest_iff (th : DetectionThresholds) (o : ScanOutcome) :
    candidateTest th o = true ↔
      ((o.primaryCount : ℚ) ≥ th.minimum_primary_elements ∧
       o.totalWeight ≥ th.minimum_total_weight ∧
       (o.detectedElements.length : ℚ) ≥ th.minimum_elements_overall) := by
  simp [candidateTest, and_assoc]

theorem buildResult_fields (env : JSEnv) (pats : List String) (url : String)
    (th : DetectionThresholds) (o : ScanOutcome) :
    (buildResult env pats url th o).primaryElementsCount = o.primaryCount ∧
    (buildResult env pats url th o).secondaryElementsCount = o.secondaryCount ∧
    (buildResult env pats url th o).totalWeight = o.totalWeight ∧
    (buildResult env pats url th o).detectedElements = o.detectedElements := by
  unfold buildResult
  by_cases hc : candidateTest th o <;>
    by_cases ht : isTrustedLoginDomain env pats url <;>
      simp [hc, ht, baseResult]

theorem buildResult_isPhishing (env : JSEnv) (pats : List String) (url : String)
    (th : DetectionThresholds) (o : ScanOutcome) :
    (buildResult env pats url th o).isPhishing =
      (candidateTest th o && !(isTrustedLoginDomain env pats url)) := by
  unfold buildResult
  by_cases hc : candidateTest th o <;>
    by_cases ht : isTrustedLoginDomain env pats url <;>
      simp [hc, ht, baseResult]

/-! ## Background script (`src/scripts/background.ts`): URL-based verdicts -/

/-- ASCII lowercase on one character, modelling what
`String.prototype.toLowerCase()` does on the ASCII range (URL origins are
ASCII after parsing). -/
def lowerChar (c : Char) : Char :=
  if 65 ≤ c.toNat && c.toNat ≤ 90 then Char.ofNat (c.toNat + 32) else c

def lowerStr (s : String) : String :=
  String.mk (s.data.map lowerChar)

/-- `urlOrigin(u)` (background.ts:420-426): `new URL(u).origin.toLowerCase()`,
with the `URL` constructor's throw caught and mapped to the empty string. -/
def urlOrigin (env : JSEnv) (u : String) : String :=
  match env.parseOrigin u with
  | some origin => lowerStr origin
  | none => ""

/-- The hard-coded default `new Set([...])` of `verdictForUrl`
(background.ts:432-436). -/
def defaultTrustedOrigins : List String :=
  ["https://login.microsoftonline.com",
   "https://login.microsoft.com",
   "https://account.microsoft.com"]

/-- A `trustedOrigins` value supplied by the loaded policy object.  Policies
are JSON documents (managed/local storage), so a supplied value is a plain
array and carries `hasMethod := false`: the guard
`trustedOrigins.has && trustedOrigins.has(origin)` (background.ts:437) is
falsy for it.  `hasMethod := true` models a genuine `Set`. -/
structure JsSetLike where
  hasMethod : Bool
  elems : List String
deriving DecidableEq

/-- `verdictForUrl(raw)` (background.ts:429-440). -/
def verdictForUrl (env : JSEnv) (policyTrustedOrigins : Option JsSetLike)
    (extraWhitelist : List String) (raw : String) : String :=
  let origin := urlOrigin env raw
  let trustedHit : Bool :=
    match policyTrustedOrigins with
    | none => decide (origin ∈ defaultTrustedOrigins)
    | some t => t.hasMethod && decide (origin ∈ t.elems)
  if trustedHit then "trusted"
  else if decide (origin ∈ extraWhitelist) then "trusted-extra"
  else "not-evaluated"

/-- The `extraWhitelist` set built by `refreshPolicy` (background.ts:407-411):
`new Set((policy.ExtraWhitelist || []).map(urlOrigin).filter(Boolean))`; the
`filter(Boolean)` drops the empty strings produced by unparseable entries. -/
def mkExtraWhitelist (env : JSEnv) (extraWhitelistPolicy : List String) :
    List String :=
  (extraWhitelistPolicy.map (urlOrigin env)).filter (fun s => decide (s ≠ ""))

/-! ## Background script: verdict update on a completed tab navigation
(`handleTabUpdate`, background.ts:736-755) -/

/-- The guard
`!existingVerdict || existingVerdict === 'not-evaluated' ||
 (existingVerdict === 'trusted' && urlBasedVerdict !== 'trusted')`
(background.ts:741-744).  `none` models an absent stored verdict. -/
def shouldUpdateVerdict (existingVerdict : Option String)
    (urlBasedVerdict : String) : Bool :=
  existingVerdict.isNone ||
    decide (existingVerdict = some "not-evaluated") ||
    (decide (existingVerdict = some "trusted") &&
      decide (urlBasedVerdict ≠ "trusted"))

/-- Effect of one `urlComplete` (tab update with `status === 'complete'`) on the
stored verdict of a tab: write the URL-based verdict when the guard allows it,
keep the existing verdict otherwise (background.ts:746-755). -/
def handleUrlComplete (env : JSEnv) (policyTrustedOrigins : Option JsSetLike)
    (extraWhitelist : List String) (existingVerdict : Option String)
    (url : String) : Option String :=
  let urlBasedVerdict := verdictForUrl env policyTrustedOrigins extraWhitelist url
  if shouldUpdateVerdict existingVerdict urlBasedVerdict then some urlBasedVerdict
  else existingVerdict

/-- A sequence of `urlComplete` events on one tab, processed in order. -/
def runUrlCompletes (env : JSEnv) (policyTrustedOrigins : Option JsSetLike)
    (extraWhitelist : List String) (st : Option String) (urls : List String) :
    Option String :=
  urls.foldl (handleUrlComplete env policyTrustedOrigins extraWhitelist) st

/-! ## Background script: per-tab state and the `tabs.onRemoved` listener
(background.ts:658-663) -/

/-- Per-tab state of the background worker: the session-storage entries
`verdict:<tabId>`, the `tabHeaders` cache (value reduced to its `ts` field,
whose content is irrelevant here), and the key sets of `tabQueues` and
`tabDebounce`. -/
structure BgTabState where
  sessionVerdicts : List (ℕ × String)
  tabHeaders : List (ℕ × ℕ)
  tabQueues : List ℕ
  tabDebounce : List ℕ
deriving DecidableEq

/-- The `chrome.tabs.onRemoved` listener of background.ts:658-663: it deletes
the header-cache entry, the task-queue entry and the debounce timer of the tab;
it does not touch `chrome.storage.session`, so `sessionVerdicts` is unchanged. -/
def onTabRemoved (tabId : ℕ) (s : BgTabState) : BgTabState :=
  { s with
    tabHeaders := s.tabHeaders.filter (fun p => p.1 != tabId)
    tabQueues := s.tabQueues.filter (fun i => i != tabId)
    tabDebounce := s.tabDebounce.filter (fun i => i != tabId) }

/-- `chrome.storage.session.get('verdict:' + tabId)`, as used by the
`tabs.onActivated` listener (background.ts:605-609). -/
def getSessionVerdict (s : BgTabState) (tabId : ℕ) : Option String :=
  (s.sessionVerdicts.find? (fun p => p.1 == tabId)).map Prod.snd

/-! ## Background script: initialization retry supervisor
(`_doInitialize`, background.ts:321-385; `enterFallbackMode`, 381-385;
`ping` branch of `handleMessage`, background.ts:1513-1523) -/

/-- The hardcoded policy object of `getDefaultPolicy` (background.ts:387-399). -/
structure CheckPolicy where
  BrandingName : String
  BrandingImage : String
  ExtraWhitelist : List String
  CIPPReportingServer : String
  AlertWhenLogon : Bool
  ValidPageBadgeImage : String
  StrictResourceAudit : Bool
  RequireMicrosoftAction : Bool
  EnableValidPageBadge : Bool
deriving DecidableEq

def getDefaultPolicy : CheckPolicy :=
  { BrandingName := "CyberDrain Check Phishing Protection"
    BrandingImage := ""
    ExtraWhitelist := []
    CIPPReportingServer := ""
    AlertWhenLogon := true
    ValidPageBadgeImage := ""
    StrictResourceAudit := true
    RequireMicrosoftAction := true
    EnableValidPageBadge := false }

def maxInitializationRetries : ℕ := 3

/-- The supervisor fields of `CheckBackground` that the retry logic reads and
writes. -/
structure SupervisorState where
  isInitialized : Bool
  initializationRetries : ℕ
  retryScheduled : Bool
  errorCount : ℕ
  policy : Option CheckPolicy
deriving DecidableEq

/-- Field initializers of `CheckBackground` (background.ts:236-253). -/
def supervisorInit : SupervisorState :=
  { isInitialized := false
    initializationRetries := 0
    retryScheduled := false
    errorCount := 0
    policy := none }

/-- `enterFallbackMode` (background.ts:381-385). -/
def enterFallbackMode (s : SupervisorState) : SupervisorState :=
  { s with isInitialized := false, policy := some getDefaultPolicy }

/-- One completed `_doInitialize` attempt (background.ts:321-378): on success,
mark initialized and reset the counters; on failure, bump the retry counter and
either schedule a `check:init-retry` alarm `1000 * retries` ms ahead (when
`retries < maxInitializationRetries`) or enter fallback mode.  The second
component is the scheduled alarm delay, `none` when no alarm is created. -/
def doInitializeStep (succeeds : Bool) (s : SupervisorState) :
    SupervisorState × Option ℕ :=
  if succeeds then
    ({ s with
        isInitialized := true
        initializationRetries := 0
        errorCount := 0 }, none)
  else
    let retries := s.initializationRetries + 1
    if retries < maxInitializationRetries then
      ({ s with initializationRetries := retries, retryScheduled := true },
       some (1000 * retries))
    else
      (enterFallbackMode { s with initializationRetries := retries }, none)

/-- `n` consecutive failing initialization attempts, collecting the alarm
scheduled (or not) after each one. -/
def runFailures : ℕ → SupervisorState → SupervisorState × List (Option ℕ)
  | 0, s => (s, [])
  | n + 1, s =>
    let step := doInitializeStep false s
    let rest := runFailures n step.1
    (rest.1, step.2 :: rest.2)

/-- The fields of the `ping` response relevant to the claims
(background.ts:1513-1523): `fallbackMode: !this.isInitialized`. -/
structure PingResponse where
  success : Bool
  initialized : Bool
  fallbackMode : Bool
  errorCount : ℕ
deriving DecidableEq

def pingResponse (s : SupervisorState) : PingResponse :=
  { success := true
    initialized := s.isInitialized
    fallbackMode := !s.isInitialized
    errorCount := s.errorCount }

/-! ## Background script: rogue-app registry refresh
(`RogueAppsManager.updateRogueApps`, background.ts:154-190) -/

/-- One record of the fetched rogue-app array; `appId = ""` models a record
whose `appId` is absent/falsy (skipped by `if (app.appId)`). -/
structure RogueApp where
  appId : String
  displayName : String
  severity : String
  description : String
deriving DecidableEq

/-- The body obtained from a completed HTTP response: `response.json()` throws
on malformed JSON; a parsed value is either an array of records or not an
array. -/
inductive FetchBody where
  | malformed : FetchBody
  | jsonArray : List RogueApp → FetchBody
  | jsonNonArray : FetchBody
deriving DecidableEq

/-- Outcome of `fetchWithTimeout`: a network error / timeout abort, or a
response with its `ok` flag and body. -/
inductive FetchResult where
  | networkFailure : FetchResult
  | response : Bool → FetchBody → FetchResult
deriving DecidableEq

/-- The mutable state of `RogueAppsManager` the refresh touches: the in-memory
`rogueApps` map (association list in insertion order) and `lastUpdate`. -/
structure RogueState where
  rogueApps : List (String × RogueApp)
  lastUpdate : ℕ
deriving DecidableEq

/-- `Map.prototype.set`: overwrite in place when the key exists, append
otherwise. -/
def mapSet (m : List (String × RogueApp)) (k : String) (v : RogueApp) :
    List (String × RogueApp) :=
  if m.any (fun p => p.1 == k) then
    m.map (fun p => if p.1 == k then (k, v) else p)
  else m ++ [(k, v)]

/-- `this.rogueApps.clear()` followed by the
`apps.forEach((app) => { if (app.appId) this.rogueApps.set(app.appId, app) })`
loop (background.ts:169-174). -/
def insertApps (apps : List RogueApp) : List (String × RogueApp) :=
  apps.foldl
    (fun m app => if app.appId ≠ "" then mapSet m app.appId app else m) []

/-- `updateRogueApps` (background.ts:154-190), as a state transformer.  The
second component is the error rethrown by the surrounding catch (`none` on
success); the first component is the manager state when the method returns or
throws — every validation failure throws before the `clear()` call, so the
state at a throw is the input state.  The persisted-cache write
(`chrome.storage.local.set`, wrapped in `safe`) is an external effect with no
bearing on the in-memory state. -/
def updateRogueApps (fetched : FetchResult) (now : ℕ) (s : RogueState) :
    RogueState × Option String :=
  match fetched with
  | FetchResult.networkFailure => (s, some "fetch failed")
  | FetchResult.response ok body =>
    if !ok then (s, some "HTTP error")
    else
      match body with
      | FetchBody.malformed => (s, some "malformed JSON")
      | FetchBody.jsonNonArray =>
        (s, some "Invalid response format: expected array")
      | FetchBody.jsonArray apps =>
        ({ rogueApps := insertApps apps, lastUpdate := now }, none)

/-- Whether a fetch outcome passes every validation of `updateRogueApps`. -/
def fetchSucceeded : FetchResult → Bool
  | FetchResult.response true (FetchBody.jsonArray _) => true
  | _ => false

/-! ## A concrete, computable host environment for witnesses

The theorems below are proved for every `JSEnv`; the witnesses instantiate
them at `toyEnv`, a small executable instance in which a pattern is the
literal substring it matches (the single pattern `"("` plays the role of an
invalid regex, as it is in JavaScript) and origins follow the
`scheme://host` shape. -/

def hasPrefixB : List Char → List Char → Bool
  | _, [] => true
  | [], _ :: _ => false
  | h :: hs, p :: ps => (h == p) && hasPrefixB hs ps

def hasSubB (pat : List Char) : List Char → Bool
  | [] => pat.isEmpty
  | h :: t => hasPrefixB (h :: t) pat || hasSubB pat t

/-- Substring test used as the toy regex semantics. -/
def strContainsB (hay pat : String) : Bool :=
  hasSubB pat.data hay.data

def takeUntilSlash : List Char → List Char
  | [] => []
  | c :: t => if c == '/' then [] else c :: takeUntilSlash t

/-- Toy URL-origin parser: accepts `http://host/...` and `https://host/...`. -/
def toyParseOrigin (u : String) : Option String :=
  if hasPrefixB u.data "https://".data then
    let host := takeUntilSlash (u.data.drop 8)
    if host.isEmpty then none else some (String.mk ("https://".data ++ host))
  else if hasPrefixB u.data "http://".data then
    let host := takeUntilSlash (u.data.drop 7)
    if host.isEmpty then none else some (String.mk ("http://".data ++ host))
  else none

def toyEnv : JSEnv :=
  { compile := fun p _ic =>
      if p = "(" then none else some (fun s => strContainsB s p)
    parseOrigin := toyParseOrigin }

/-- The boundary rule set of the spec's threshold-boundary scenario:
thresholds `{minPrimary := 2, minWeight := 5, minOverall := 3}`, two primary
elements whose weights sum to 5, one secondary element. -/
def boundaryThresholds : DetectionThresholds :=
  { minimum_primary_elements := 2
    minimum_total_weight := 5
    minimum_elements_overall := 3 }

def boundaryP1 : RuleElement := { id := "p1", pattern := "loginfmt", weight := 2 }

def boundaryP2 : RuleElement := { id := "p2", pattern := "aadcdn", weight := 3 }

def boundaryS1 : RuleElement := { id := "s1", pattern := "forgot", weight := 1 }

def boundaryReq : M365DetectionRequirements :=
  { primary_elements := [boundaryP1, boundaryP2]
    secondary_elements := [boundaryS1]
    detection_thresholds := boundaryThresholds }

/-- The same rule set with one matched element removed, in each of the three
ways. -/
def boundaryReqDropP1 : M365DetectionRequirements :=
  { boundaryReq with primary_elements := [boundaryP2] }

def boundaryReqDropP2 : M365DetectionRequirements :=
  { boundaryReq with primary_elements := [boundaryP1] }

def boundaryReqDropS1 : M365DetectionRequirements :=
  { boundaryReq with secondary_elements := [] }

/-- Markup matching all three boundary elements. -/
def boundarySrc : String := "x loginfmt y aadcdn z forgot w"

def boundaryUrl : String := "https://evil.example/login"

/-! ## Evaluation helpers for the concrete scenarios -/

theorem getOk_ok (r : DetectionResult) : getOk (Except.ok r) = r := rfl

theorem buildResult_phishy (env : JSEnv) (pats : List String) (url : String)
    (th : DetectionThresholds) (o : ScanOutcome)
    (hc : candidateTest th o = true)
    (ht : isTrustedLoginDomain env pats url = false) :
    buildResult env pats url th o =
      { baseResult o url with
        isPhishing := true
        confidence := min (o.totalWeight / th.minimum_total_weight) 1
        reasons := ["Microsoft 365 login page detected on untrusted domain"]
        severity := some
          (if min (o.totalWeight / th.minimum_total_weight) 1 > 0.8 then "high"
           else "medium") } := by
  simp [buildResult, hc, ht]

theorem buildResult_trusted (env : JSEnv) (pats : List String) (url : String)
    (th : DetectionThresholds) (o : ScanOutcome)
    (hc : candidateTest th o = true)
    (ht : isTrustedLoginDomain env pats url = true) :
    buildResult env pats url th o =
      { baseResult o url with
        reasons := ["Microsoft 365 login page on trusted domain"] } := by
  simp [buildResult, hc, ht]

/-- The signals the boundary scenario produces (weights already summed). -/
def boundaryOutcome : ScanOutcome := ⟨["p1", "p2", "s1"], 6, 2, 1⟩

theorem boundary_scan_eval :
    scanPage toyEnv boundaryReq boundarySrc = Except.ok boundaryOutcome := by
  have h : scanPage toyEnv boundaryReq boundarySrc =
      Except.ok ⟨["p1", "p2", "s1"], 2 + (3 + 0) + (1 + 0), 2, 1⟩ := rfl
  have hw : (2 + (3 + 0) + (1 + 0) : ℚ) = 6 := by norm_num
  rw [hw] at h
  exact h

theorem boundary_analyze_eval :
    analyzePageForPhishing toyEnv [] (some boundaryReq) boundaryUrl boundarySrc =
      Except.ok (buildResult toyEnv [] boundaryUrl boundaryThresholds
        boundaryOutcome) := by
  simp only [analyzePageForPhishing]
  rw [boundary_scan_eval]
  rfl

theorem boundary_isPhishing :
    (getOk (analyzePageForPhishing toyEnv [] (some boundaryReq) boundaryUrl
      boundarySrc)).isPhishing = true := by
  rw [boundary_analyze_eval, getOk_ok, buildResult_isPhishing]
  decide

theorem dropP1_isPhishing :
    (getOk (analyzePageForPhishing toyEnv [] (some boundaryReqDropP1) boundaryUrl
      boundarySrc)).isPhishing = false := by
  have h : scanPage toyEnv boundaryReqDropP1 boundarySrc =
      Except.ok ⟨["p2", "s1"], 3 + 0 + (1 + 0), 1, 1⟩ := rfl
  have ha : analyzePageForPhishing toyEnv [] (some boundaryReqDropP1) boundaryUrl
      boundarySrc = Except.ok (buildResult toyEnv [] boundaryUrl
        boundaryThresholds ⟨["p2", "s1"], 3 + 0 + (1 + 0), 1, 1⟩) := by
    simp only [analyzePageForPhishing]
    rw [h]
    rfl
  rw [ha, getOk_ok, buildResult_isPhishing]
  decide

theorem dropP2_isPhishing :
    (getOk (analyzePageForPhishing toyEnv [] (some boundaryReqDropP2) boundaryUrl
      boundarySrc)).isPhishing = false := by
  have h : scanPage toyEnv boundaryReqDropP2 boundarySrc =
      Except.ok ⟨["p1", "s1"], 2 + 0 + (1 + 0), 1, 1⟩ := rfl
  have ha : analyzePageForPhishing toyEnv [] (some boundaryReqDropP2) boundaryUrl
      boundarySrc = Except.ok (buildResult toyEnv [] boundaryUrl
        boundaryThresholds ⟨["p1", "s1"], 2 + 0 + (1 + 0), 1, 1⟩) := by
    simp only [analyzePageForPhishing]
    rw [h]
    rfl
  rw [ha, getOk_ok, buildResult_isPhishing]
  decide

theorem dropS1_isPhishing :
    (getOk (analyzePageForPhishing toyEnv [] (some boundaryReqDropS1) boundaryUrl
      boundarySrc)).isPhishing = false := by
  have h : scanPage toyEnv boundaryReqDropS1 boundarySrc =
      Except.ok ⟨["p1", "p2"], 2 + (3 + 0) + 0, 2, 0⟩ := rfl
  have hw : (2 + (3 + 0) + 0 : ℚ) = 5 := by norm_num
  rw [hw] at h
  have ha : analyzePageForPhishing toyEnv [] (some boundaryReqDropS1) boundaryUrl
      boundarySrc = Except.ok (buildResult toyEnv [] boundaryUrl
        boundaryThresholds ⟨["p1", "p2"], 5, 2, 0⟩) := by
    simp only [analyzePageForPhishing]
    rw [h]
    rfl
  rw [ha, getOk_ok, buildResult_isPhishing]
  decide

/-- A trusted-login-pattern list and a URL whose origin matches it, for the
trusted-versus-untrusted comparison. -/
def trustedPats : List String := ["login.microsoftonline.com"]

def trustedUrl : String := "https://login.microsoftonline.com/common"

theorem trusted_analyze_eval :
    analyzePageForPhishing toyEnv trustedPats (some boundaryReq) trustedUrl
      boundarySrc =
      Except.ok (buildResult toyEnv trustedPats trustedUrl boundaryThresholds
        boundaryOutcome) := by
  simp only [analyzePageForPhishing]
  rw [boundary_scan_eval]
  rfl

theorem untrusted_analyze_eval :
    analyzePageForPhishing toyEnv trustedPats (some boundaryReq) boundaryUrl
      boundarySrc =
      Except.ok (buildResult toyEnv trustedPats boundaryUrl boundaryThresholds
        boundaryOutcome) := by
  simp only [analyzePageForPhishing]
  rw [boundary_scan_eval]
  rfl

/-! ## Claim theorems -/

/-- Claim C1: for every rule set and page markup whose scan completes, the
scoring function sets `isPhishing = true` exactly when the matched
primary-element count, the total matched weight and the total matched-element
count all reach their (inclusive) thresholds and the page origin matches no
trusted login pattern; moreover, in the concrete boundary scenario
(thresholds 2/5/3, two primary elements of total weight 5 and one secondary
element on an untrusted origin) the verdict is `isPhishing = true`, and
removing any one matched element flips it to `false`. -/
theorem c1_isPhishing_characterization :
    (∀ (env : JSEnv) (pats : List String) (req : M365DetectionRequirements)
        (url src : String) (r : DetectionResult),
        analyzePageForPhishing env pats (some req) url src = Except.ok r →
        (r.isPhishing = true ↔
          ((r.primaryElementsCount : ℚ) ≥
              req.detection_thresholds.minimum_primary_elements ∧
            r.totalWeight ≥ req.detection_thresholds.minimum_total_weight ∧
            (((r.primaryElementsCount + r.secondaryElementsCount : ℕ)) : ℚ) ≥
              req.detection_thresholds.minimum_elements_overall ∧
            isTrustedLoginDomain env pats url = false))) ∧
    (getOk (analyzePageForPhishing toyEnv [] (some boundaryReq) boundaryUrl
      boundarySrc)).isPhishing = true ∧
    (getOk (analyzePageForPhishing toyEnv [] (some boundaryReqDropP1) boundaryUrl
      boundarySrc)).isPhishing = false ∧
    (getOk (analyzePageForPhishing toyEnv [] (some boundaryReqDropP2) boundaryUrl
      boundarySrc)).isPhishing = false ∧
    (getOk (analyzePageForPhishing toyEnv [] (some boundaryReqDropS1) boundaryUrl
      boundarySrc)).isPhishing = false := by
  refine ⟨?_, boundary_isPhishing, dropP1_isPhishing, dropP2_isPhishing,
    dropS1_isPhishing⟩
  intro env pats req url src r h
  obtain ⟨o, ho, rfl⟩ := analyze_ok_elim h
  obtain ⟨hlen, -, -⟩ := scanPage_ok_spec ho
  obtain ⟨hp, hs, hw, -⟩ := buildResult_fields env pats url
    req.detection_thresholds o
  rw [buildResult_isPhishing, hp, hs, hw]
  simp only [Bool.and_eq_true, Bool.not_eq_true', candidateTest_iff]
  rw [hlen]
  tauto

/-- Witness for C1 at the boundary scenario. -/
theorem c1_witness :
    ((getOk (analyzePageForPhishing toyEnv [] (some boundaryReq) boundaryUrl
        boundarySrc)).isPhishing = true ↔
      (((getOk (analyzePageForPhishing toyEnv [] (some boundaryReq) boundaryUrl
            boundarySrc)).primaryElementsCount : ℚ) ≥
          boundaryReq.detection_thresholds.minimum_primary_elements ∧
        (getOk (analyzePageForPhishing toyEnv [] (some boundaryReq) boundaryUrl
          boundarySrc)).totalWeight ≥
          boundaryReq.detection_thresholds.minimum_total_weight ∧
        (((getOk (analyzePageForPhishing toyEnv [] (some boundaryReq)
                boundaryUrl boundarySrc)).primaryElementsCount +
            (getOk (analyzePageForPhishing toyEnv [] (some boundaryReq)
              boundaryUrl boundarySrc)).secondaryElementsCount : ℕ) : ℚ) ≥
          boundaryReq.detection_thresholds.minimum_elements_overall ∧
        isTrustedLoginDomain toyEnv [] boundaryUrl = false)) :=
  c1_isPhishing_characterization.1 toyEnv [] boundaryReq boundaryUrl boundarySrc
    (getOk (analyzePageForPhishing toyEnv [] (some boundaryReq) boundaryUrl
      boundarySrc))
    (by rw [boundary_analyze_eval]; rfl)

/-- Claim C2: whenever the scoring function reports phishing, its confidence
equals `min(totalWeight / minimum_total_weight, 1)`, never exceeds 1, the
severity is `high` exactly when the confidence exceeds 0.8 and `medium`
otherwise, and a total weight of three times a positive minimum weight yields
confidence exactly 1. -/
theorem c2_confidence_clamp :
    ∀ (env : JSEnv) (pats : List String) (req : M365DetectionRequirements)
      (url src : String) (r : DetectionResult),
      analyzePageForPhishing env pats (some req) url src = Except.ok r →
      r.isPhishing = true →
      (r.confidence =
          min (r.totalWeight / req.detection_thresholds.minimum_total_weight) 1 ∧
        r.confidence ≤ 1 ∧
        (r.severity = some "high" ↔ r.confidence > 0.8) ∧
        (r.severity = some "medium" ↔ ¬r.confidence > 0.8) ∧
        (0 < req.detection_thresholds.minimum_total_weight →
          r.totalWeight = 3 * req.detection_thresholds.minimum_total_weight →
          r.confidence = 1)) := by
  intro env pats req url src r h hph
  obtain ⟨o, ho, rfl⟩ := analyze_ok_elim h
  rw [buildResult_isPhishing] at hph
  simp only [Bool.and_eq_true, Bool.not_eq_true'] at hph
  obtain ⟨hc, ht⟩ := hph
  rw [buildResult_phishy env pats url req.detection_thresholds o hc ht]
  refine ⟨?_, ?_, ?_, ?_, ?_⟩
  · simp [baseResult]
  · simp only [baseResult]
    exact min_le_right _ _
  · by_cases hcf :
      min (o.totalWeight / req.detection_thresholds.minimum_total_weight) 1 >
        0.8 <;>
      simp [baseResult, hcf]
  · by_cases hcf :
      min (o.totalWeight / req.detection_thresholds.minimum_total_weight) 1 >
        0.8 <;>
      simp [baseResult, hcf]
  · intro hpos hweq
    simp only [baseResult] at hweq ⊢
    rw [hweq, mul_div_assoc, div_self (ne_of_gt hpos), mul_one]
    exact min_eq_right (by norm_num)

/-- Witness for C2 at the boundary scenario (where `isPhishing = true`). -/
theorem c2_witness :
    ((getOk (analyzePageForPhishing toyEnv [] (some boundaryReq) boundaryUrl
        boundarySrc)).confidence =
        min ((getOk (analyzePageForPhishing toyEnv [] (some boundaryReq)
            boundaryUrl boundarySrc)).totalWeight /
          boundaryReq.detection_thresholds.minimum_total_weight) 1 ∧
      (getOk (analyzePageForPhishing toyEnv [] (some boundaryReq) boundaryUrl
        boundarySrc)).confidence ≤ 1 ∧
      ((getOk (analyzePageForPhishing toyEnv [] (some boundaryReq) boundaryUrl
          boundarySrc)).severity = some "high" ↔
        (getOk (analyzePageForPhishing toyEnv [] (some boundaryReq) boundaryUrl
          boundarySrc)).confidence > 0.8) ∧
      ((getOk (analyzePageForPhishing toyEnv [] (some boundaryReq) boundaryUrl
          boundarySrc)).severity = some "medium" ↔
        ¬(getOk (analyzePageForPhishing toyEnv [] (some boundaryReq) boundaryUrl
          boundarySrc)).confidence > 0.8) ∧
      (0 < boundaryReq.detection_thresholds.minimum_total_weight →
        (getOk (analyzePageForPhishing toyEnv [] (some boundaryReq) boundaryUrl
          boundarySrc)).totalWeight =
          3 * boundaryReq.detection_thresholds.minimum_total_weight →
        (getOk (analyzePageForPhishing toyEnv [] (some boundaryReq) boundaryUrl
          boundarySrc)).confidence = 1)) :=
  c2_confidence_clamp toyEnv [] boundaryReq boundaryUrl boundarySrc
    (getOk (analyzePageForPhishing toyEnv [] (some boundaryReq) boundaryUrl
      boundarySrc))
    (by rw [boundary_analyze_eval]; rfl) boundary_isPhishing

/-- Claim C3: on identical matched signals (same rule set and markup), with the
candidate test passing, a trusted origin yields `isPhishing = false` with the
trusted-domain reason while an untrusted origin yields `isPhishing = true`;
the two results carry identical detected elements, weights and counts, so the
origin check is the only discriminating input. -/
theorem c3_trusted_origin_suppression :
    ∀ (env : JSEnv) (pats : List String) (req : M365DetectionRequirements)
      (url₁ url₂ src : String) (r₁ r₂ : DetectionResult),
      analyzePageForPhishing env pats (some req) url₁ src = Except.ok r₁ →
      analyzePageForPhishing env pats (some req) url₂ src = Except.ok r₂ →
      isTrustedLoginDomain env pats url₁ = true →
      isTrustedLoginDomain env pats url₂ = false →
      (r₁.primaryElementsCount : ℚ) ≥
        req.detection_thresholds.minimum_primary_elements →
      r₁.totalWeight ≥ req.detection_thresholds.minimum_total_weight →
      (r₁.detectedElements.length : ℚ) ≥
        req.detection_thresholds.minimum_elements_overall →
      (r₁.isPhishing = false ∧
        r₁.reasons = ["Microsoft 365 login page on trusted domain"] ∧
        r₂.isPhishing = true ∧
        r₂.reasons = ["Microsoft 365 login page detected on untrusted domain"] ∧
        r₁.detectedElements = r₂.detectedElements ∧
        r₁.totalWeight = r₂.totalWeight ∧
        r₁.primaryElementsCount = r₂.primaryElementsCount ∧
        r₁.secondaryElementsCount = r₂.secondaryElementsCount) := by
  intro env pats req url₁ url₂ src r₁ r₂ h₁ h₂ ht₁ ht₂ hA hB hC
  obtain ⟨o₁, ho₁, rfl⟩ := analyze_ok_elim h₁
  obtain ⟨o₂, ho₂, rfl⟩ := analyze_ok_elim h₂
  rw [ho₁] at ho₂
  injection ho₂ with heq
  subst heq
  obtain ⟨hp, hs, hw, hd⟩ := buildResult_fields env pats url₁
    req.detection_thresholds o₁
  rw [hp] at hA
  rw [hw] at hB
  rw [hd] at hC
  have hc : candidateTest req.detection_thresholds o₁ = true := by
    rw [candidateTest_iff]
    exact ⟨hA, hB, hC⟩
  rw [buildResult_trusted env pats url₁ req.detection_thresholds o₁ hc ht₁,
    buildResult_phishy env pats url₂ req.detection_thresholds o₁ hc ht₂]
  simp [baseResult]

/-- Witness for C3: the boundary signals on a trusted versus an untrusted
origin. -/
theorem c3_witness :
    ((getOk (analyzePageForPhishing toyEnv trustedPats (some boundaryReq)
        trustedUrl boundarySrc)).isPhishing = false ∧
      (getOk (analyzePageForPhishing toyEnv trustedPats (some boundaryReq)
        trustedUrl boundarySrc)).reasons =
        ["Microsoft 365 login page on trusted domain"] ∧
      (getOk (analyzePageForPhishing toyEnv trustedPats (some boundaryReq)
        boundaryUrl boundarySrc)).isPhishing = true ∧
      (getOk (analyzePageForPhishing toyEnv trustedPats (some boundaryReq)
        boundaryUrl boundarySrc)).reasons =
        ["Microsoft 365 login page detected on untrusted domain"] ∧
      (getOk (analyzePageForPhishing toyEnv trustedPats (some boundaryReq)
        trustedUrl boundarySrc)).detectedElements =
        (getOk (analyzePageForPhishing toyEnv trustedPats (some boundaryReq)
          boundaryUrl boundarySrc)).detectedElements ∧
      (getOk (analyzePageForPhishing toyEnv trustedPats (some boundaryReq)
        trustedUrl boundarySrc)).totalWeight =
        (getOk (analyzePageForPhishing toyEnv trustedPats (some boundaryReq)
          boundaryUrl boundarySrc)).totalWeight ∧
      (getOk (analyzePageForPhishing toyEnv trustedPats (some boundaryReq)
        trustedUrl boundarySrc)).primaryElementsCount =
        (getOk (analyzePageForPhishing toyEnv trustedPats (some boundaryReq)
          boundaryUrl boundarySrc)).primaryElementsCount ∧
      (getOk (analyzePageForPhishing toyEnv trustedPats (some boundaryReq)
        trustedUrl boundarySrc)).secondaryElementsCount =
        (getOk (analyzePageForPhishing toyEnv trustedPats (some boundaryReq)
          boundaryUrl boundarySrc)).secondaryElementsCount) :=
  c3_trusted_origin_suppression toyEnv trustedPats boundaryReq trustedUrl
    boundaryUrl boundarySrc
    (getOk (analyzePageForPhishing toyEnv trustedPats (some boundaryReq)
      trustedUrl boundarySrc))
    (getOk (analyzePageForPhishing toyEnv trustedPats (some boundaryReq)
      boundaryUrl boundarySrc))
    (by rw [trusted_analyze_eval]; rfl)
    (by rw [untrusted_analyze_eval]; rfl)
    (by decide) (by decide)
    (by rw [trusted_analyze_eval, getOk_ok,
          (buildResult_fields toyEnv trustedPats trustedUrl boundaryThresholds
            boundaryOutcome).1]
        decide)
    (by rw [trusted_analyze_eval, getOk_ok,
          (buildResult_fields toyEnv trustedPats trustedUrl boundaryThresholds
            boundaryOutcome).2.2.1]
        decide)
    (by rw [trusted_analyze_eval, getOk_ok,
          (buildResult_fields toyEnv trustedPats trustedUrl boundaryThresholds
            boundaryOutcome).2.2.2]
        decide)

/-- A rule set containing one element with an invalid regex pattern (the toy
engine rejects `"("` exactly as JavaScript does) followed by a valid element
whose pattern matches the markup. -/
def invalidPatternReq : M365DetectionRequirements :=
  { primary_elements :=
      [{ id := "bad-regex", pattern := "(", weight := 5 },
       { id := "m365-login", pattern := "loginfmt", weight := 5 }]
    secondary_elements := []
    detection_thresholds :=
      { minimum_primary_elements := 1
        minimum_total_weight := 1
        minimum_elements_overall := 1 } }

/-- Claim C4 (code bug): an invalid regex in a rule element makes the whole
scan throw — `analyzePageForPhishing` aborts with the uncaught `SyntaxError`
from `new RegExp(element.pattern, 'i')` and produces no `DetectionResult` at
all, even though the remaining valid element matches the markup.  The
skip-and-continue behaviour the claim describes exists only in
`matchesAnyPattern` (the URL-pattern path), shown by the third conjunct. -/
theorem c4_invalid_regex_aborts_scan :
    analyzePageForPhishing toyEnv [] (some invalidPatternReq)
        "https://evil.example/x" "loginfmt page" = Except.error () ∧
    elementHitB toyEnv "loginfmt page"
        { id := "m365-login", pattern := "loginfmt", weight := 5 } = true ∧
    matchesAnyPattern toyEnv "https://evil.example" ["(", "evil.example"] =
      true :=
  ⟨rfl, by decide, by decide⟩

/-- Claim C5: once a tab's stored verdict is `phishy`, `rogue-app` or
`ms-login-unknown`, no sequence of later `urlComplete` events changes it; and
the URL-based verdict is written exactly when there is no existing verdict,
the existing verdict is `not-evaluated`, or it is `trusted` and the new
verdict differs from `trusted`. -/
theorem c5_verdict_monotonicity :
    ∀ (env : JSEnv) (pt : Option JsSetLike) (ew : List String) (v : String)
      (urls : List String) (existing : Option String) (u : String),
      (v = "phishy" ∨ v = "rogue-app" ∨ v = "ms-login-unknown" →
        runUrlCompletes env pt ew (some v) urls = some v) ∧
      (shouldUpdateVerdict existing (verdictForUrl env pt ew u) = true ↔
        (existing = none ∨ existing = some "not-evaluated" ∨
          (existing = some "trusted" ∧ verdictForUrl env pt ew u ≠ "trusted"))) ∧
      (handleUrlComplete env pt ew existing u = existing ∨
        handleUrlComplete env pt ew existing u =
          some (verdictForUrl env pt ew u)) := by
  intro env pt ew v urls existing u
  refine ⟨?_, ?_, ?_⟩
  · intro hv
    induction urls with
    | nil => rfl
    | cons u2 rest ih =>
      simp only [runUrlCompletes, List.foldl_cons] at ih ⊢
      have hstep : handleUrlComplete env pt ew (some v) u2 = some v := by
        unfold handleUrlComplete shouldUpdateVerdict
        rcases hv with rfl | rfl | rfl <;> simp
      rw [hstep]
      exact ih
  · unfold shouldUpdateVerdict
    cases existing with
    | none => simp
    | some s =>
      simp [Option.isNone, and_assoc]
  · unfold handleUrlComplete
    by_cases hg :
        shouldUpdateVerdict existing (verdictForUrl env pt ew u) = true
    · rw [if_pos hg]
      exact Or.inr rfl
    · rw [if_neg hg]
      exact Or.inl rfl

/-- Witness for C5: a `phishy` verdict survives later `urlComplete` events,
including one whose URL-based verdict would be `trusted`. -/
theorem c5_witness :
    runUrlCompletes toyEnv none [] (some "phishy")
      ["https://login.microsoftonline.com/x", "https://evil.example/y"] =
      some "phishy" :=
  (c5_verdict_monotonicity toyEnv none [] "phishy"
    ["https://login.microsoftonline.com/x", "https://evil.example/y"]
    (some "phishy") "https://evil.example/y").1 (Or.inl rfl)

/-- A per-tab state holding a stored `phishy` verdict, a header-cache entry, a
task queue and a debounce timer for tab 7. -/
def c6State : BgTabState :=
  { sessionVerdicts := [(7, "phishy")]
    tabHeaders := [(7, 0)]
    tabQueues := [7]
    tabDebounce := [7] }

/-- Claim C6 (code bug): the `tabs.onRemoved` listener deletes the header
cache, the task queue and the debounce timer, but never removes the
session-stored `verdict:<tabId>` entry — after removing tab 7 the verdict is
still retrievable. -/
theorem c6_tab_removed_leaves_verdict :
    (∀ (tabId : ℕ) (s : BgTabState),
      (onTabRemoved tabId s).sessionVerdicts = s.sessionVerdicts) ∧
    getSessionVerdict (onTabRemoved 7 c6State) 7 = some "phishy" ∧
    (onTabRemoved 7 c6State).tabHeaders = [] ∧
    (onTabRemoved 7 c6State).tabQueues = [] ∧
    (onTabRemoved 7 c6State).tabDebounce = [] :=
  ⟨fun _ _ => rfl, by decide, by decide, by decide, by decide⟩

/-- Once the retry counter has reached 2 or more, every further failing
attempt re-enters fallback mode and never schedules another retry alarm. -/
theorem runFailures_saturated :
    ∀ (n : ℕ) (s : SupervisorState), 2 ≤ s.initializationRetries →
      (runFailures n s).2 = List.replicate n none ∧
      ((runFailures n s).1 = s ∨
        ((runFailures n s).1.isInitialized = false ∧
          (runFailures n s).1.policy = some getDefaultPolicy)) := by
  intro n
  induction n with
  | zero => exact fun s _ => ⟨rfl, Or.inl rfl⟩
  | succ n ih =>
    intro s hs
    have hstep : doInitializeStep false s =
        (enterFallbackMode
          { s with initializationRetries := s.initializationRetries + 1 },
         none) := by
      unfold doInitializeStep
      rw [if_neg (by simp)]
      rw [if_neg (by simp only [maxInitializationRetries]; omega)]
    have hs2 : 2 ≤ (enterFallbackMode
        { s with initializationRetries := s.initializationRetries + 1
        }).initializationRetries := by
      simp [enterFallbackMode]
      omega
    obtain ⟨htr, hst⟩ := ih _ hs2
    simp only [runFailures, hstep]
    refine ⟨by rw [htr]; rfl, ?_⟩
    rcases hst with heq | hfb
    · rw [heq]
      exact Or.inr ⟨rfl, rfl⟩
    · exact Or.inr hfb

/-- The supervisor state after the first and second failing attempt. -/
def supAfter1 : SupervisorState :=
  { isInitialized := false
    initializationRetries := 1
    retryScheduled := true
    errorCount := 0
    policy := none }

def supAfter2 : SupervisorState :=
  { isInitialized := false
    initializationRetries := 2
    retryScheduled := true
    errorCount := 0
    policy := none }

def supAfter3 : SupervisorState :=
  { isInitialized := false
    initializationRetries := 3
    retryScheduled := true
    errorCount := 0
    policy := some getDefaultPolicy }

/-- Claim C7: a failing attempt schedules its retry alarm `1000 ms × the new
retry count` ahead; three consecutive failures produce exactly the alarms
`[1000, 2000]`, then enter fallback mode (uninitialized, hardcoded default
policy applied) and never schedule another alarm no matter how many further
failures occur; every `ping` then reports `fallbackMode = true`, which always
equals the negation of the initialized flag. -/
theorem c7_retry_bound_and_fallback :
    ∀ n : ℕ,
      (∀ (s : SupervisorState) (d : ℕ),
        (doInitializeStep false s).2 = some d →
        d = 1000 * (s.initializationRetries + 1)) ∧
      (runFailures (n + 3) supervisorInit).2 =
        [some 1000, some 2000] ++ List.replicate (n + 1) none ∧
      (runFailures (n + 3) supervisorInit).1.isInitialized = false ∧
      (runFailures (n + 3) supervisorInit).1.policy = some getDefaultPolicy ∧
      (∀ s : SupervisorState, (pingResponse s).fallbackMode = !s.isInitialized) ∧
      (pingResponse (runFailures (n + 3) supervisorInit).1).fallbackMode =
        true := by
  intro n
  have h1 : doInitializeStep false supervisorInit = (supAfter1, some 1000) := by
    decide
  have h2 : doInitializeStep false supAfter1 = (supAfter2, some 2000) := by
    decide
  have h3 : doInitializeStep false supAfter2 = (supAfter3, none) := by
    decide
  have hrun : runFailures (n + 3) supervisorInit =
      ((runFailures n supAfter3).1,
        some 1000 :: some 2000 :: none :: (runFailures n supAfter3).2) := by
    simp only [runFailures, h1, h2, h3]
  obtain ⟨htr, hst⟩ := runFailures_saturated n supAfter3 (by decide)
  have hfb : (runFailures n supAfter3).1.isInitialized = false ∧
      (runFailures n supAfter3).1.policy = some getDefaultPolicy := by
    rcases hst with heq | hfb
    · rw [heq]
      exact ⟨rfl, rfl⟩
    · exact hfb
  refine ⟨?_, ?_, ?_, ?_, ?_, ?_⟩
  · intro s d hd
    unfold doInitializeStep at hd
    rw [if_neg (by simp)] at hd
    by_cases hlt :
        s.initializationRetries + 1 < maxInitializationRetries
    · rw [if_pos hlt] at hd
      simp only [Option.some.injEq] at hd
      exact hd.symm
    · rw [if_neg hlt] at hd
      cases hd
  · rw [hrun, htr]
    simp [List.replicate_succ]
  · rw [hrun]
    exact hfb.1
  · rw [hrun]
    exact hfb.2
  · intro s
    rfl
  · rw [hrun]
    simp [pingResponse, hfb.1]

/-- Witness for C7 at `n = 0`: the first failure schedules a 1000 ms retry and
the three-failure trace is `[1000, 2000, none]`. -/
theorem c7_witness :
    ((1000 : ℕ) = 1000 * (supervisorInit.initializationRetries + 1)) ∧
    (runFailures (0 + 3) supervisorInit).2 =
      [some 1000, some 2000] ++ List.replicate (0 + 1) none ∧
    (pingResponse (runFailures (0 + 3) supervisorInit).1).fallbackMode = true :=
  ⟨(c7_retry_bound_and_fallback 0).1 supervisorInit 1000 rfl,
    (c7_retry_bound_and_fallback 0).2.1,
    (c7_retry_bound_and_fallback 0).2.2.2.2.2⟩

/-- A rule set in which the same element id occurs twice with the same
pattern and weight. -/
def dupReq : M365DetectionRequirements :=
  { primary_elements :=
      [{ id := "dup", pattern := "x", weight := 1 },
       { id := "dup", pattern := "x", weight := 1 }]
    secondary_elements := []
    detection_thresholds :=
      { minimum_primary_elements := 1
        minimum_total_weight := 1
        minimum_elements_overall := 1 } }

theorem dup_analyze_eval :
    analyzePageForPhishing toyEnv [] (some dupReq) "https://evil.example/a"
      "x y" =
      Except.ok (buildResult toyEnv [] "https://evil.example/a"
        dupReq.detection_thresholds ⟨["dup", "dup"], 2, 2, 0⟩) := by
  have h : scanPage toyEnv dupReq "x y" =
      Except.ok ⟨["dup", "dup"], 1 + (1 + 0) + 0, 2, 0⟩ := rfl
  have hw : (1 + (1 + 0) + 0 : ℚ) = 2 := by norm_num
  rw [hw] at h
  simp only [analyzePageForPhishing]
  rw [h]

/-- Claim C8 counterexample: a duplicated element id is counted once per list
occurrence — with `"dup"` appearing twice (weight 1 each) and matching, the
scan reports `detectedElements = ["dup", "dup"]` and `totalWeight = 2`, not a
single occurrence of weight 1; the claim's de-duplication does not exist. -/
theorem c8_counterexample :
    (getOk (analyzePageForPhishing toyEnv [] (some dupReq)
      "https://evil.example/a" "x y")).detectedElements = ["dup", "dup"] ∧
    (getOk (analyzePageForPhishing toyEnv [] (some dupReq)
      "https://evil.example/a" "x y")).totalWeight = 2 ∧
    (getOk (analyzePageForPhishing toyEnv [] (some dupReq)
      "https://evil.example/a" "x y")).totalWeight ≠ 1 := by
  rw [dup_analyze_eval, getOk_ok]
  obtain ⟨-, -, hw, hd⟩ := buildResult_fields toyEnv []
    "https://evil.example/a" dupReq.detection_thresholds
    ⟨["dup", "dup"], 2, 2, 0⟩
  rw [hw, hd]
  refine ⟨rfl, rfl, by norm_num⟩

/-- Claim C8 (amended): the scoring loops perform no de-duplication by element
id — every list entry whose pattern matches the markup contributes its id and
its weight exactly once per occurrence, in list order: `detectedElements` is
the id sequence of the matching entries and `totalWeight` is the sum of their
weights with multiplicity. -/
theorem c8_occurrence_accounting :
    ∀ (env : JSEnv) (pats : List String) (req : M365DetectionRequirements)
      (url src : String) (r : DetectionResult),
      analyzePageForPhishing env pats (some req) url src = Except.ok r →
      r.detectedElements =
        ((req.primary_elements ++ req.secondary_elements).filter
          (elementHitB env src)).map RuleElement.id ∧
      r.totalWeight =
        (((req.primary_elements ++ req.secondary_elements).filter
          (elementHitB env src)).map RuleElement.weight).sum := by
  intro env pats req url src r h
  obtain ⟨o, ho, rfl⟩ := analyze_ok_elim h
  obtain ⟨-, hd, hw⟩ := scanPage_ok_spec ho
  obtain ⟨-, -, hW, hD⟩ := buildResult_fields env pats url
    req.detection_thresholds o
  rw [hD, hW]
  exact ⟨hd, hw⟩

/-- Witness for the amended C8 at the duplicated-id rule set. -/
theorem c8_witness :
    (getOk (analyzePageForPhishing toyEnv [] (some dupReq)
      "https://evil.example/a" "x y")).detectedElements =
        ((dupReq.primary_elements ++ dupReq.secondary_elements).filter
          (elementHitB toyEnv "x y")).map RuleElement.id ∧
    (getOk (analyzePageForPhishing toyEnv [] (some dupReq)
      "https://evil.example/a" "x y")).totalWeight =
        (((dupReq.primary_elements ++ dupReq.secondary_elements).filter
          (elementHitB toyEnv "x y")).map RuleElement.weight).sum :=
  c8_occurrence_accounting toyEnv [] dupReq "https://evil.example/a" "x y"
    (getOk (analyzePageForPhishing toyEnv [] (some dupReq)
      "https://evil.example/a" "x y"))
    (by rw [dup_analyze_eval]; rfl)

/-- Claim C9: every failing refresh of the rogue-app registry (network error,
non-2xx response, malformed JSON, or a non-array payload) leaves the in-memory
table and `lastUpdate` unchanged and surfaces an error to the caller; the
table is cleared and repopulated only after the payload has been validated as
an array. -/
theorem c9_update_failure_atomicity :
    ∀ (fetched : FetchResult) (now : ℕ) (s : RogueState),
      fetchSucceeded fetched = false →
      (updateRogueApps fetched now s).1 = s ∧
      (updateRogueApps fetched now s).2.isSome = true := by
  intro f now s hf
  cases f with
  | networkFailure => exact ⟨rfl, rfl⟩
  | response ok body =>
    cases ok with
    | false => exact ⟨rfl, rfl⟩
    | true =>
      cases body with
      | malformed => exact ⟨rfl, rfl⟩
      | jsonNonArray => exact ⟨rfl, rfl⟩
      | jsonArray apps => simp [fetchSucceeded] at hf

/-- Witness for C9: a network failure leaves a populated registry untouched
and returns an error. -/
theorem c9_witness :
    (updateRogueApps FetchResult.networkFailure 50
      ⟨[("app-1", ⟨"app-1", "Mailer", "high", "exfil"⟩)], 3⟩).1 =
      ⟨[("app-1", ⟨"app-1", "Mailer", "high", "exfil"⟩)], 3⟩ ∧
    (updateRogueApps FetchResult.networkFailure 50
      ⟨[("app-1", ⟨"app-1", "Mailer", "high", "exfil"⟩)], 3⟩).2.isSome = true :=
  c9_update_failure_atomicity FetchResult.networkFailure 50
    ⟨[("app-1", ⟨"app-1", "Mailer", "high", "exfil"⟩)], 3⟩ rfl

/-- Claim C10: `verdictForUrl` is total — for every input string it returns
exactly one of `trusted`, `trusted-extra`, `not-evaluated` — and an
unparseable URL (origin mapped to `""`) always yields `not-evaluated`, since
`""` is neither in the default trusted-origin set (and a JSON-supplied
`trustedOrigins` either has no `has` method or is assumed not to contain `""`)
nor in the extra whitelist, which filters empty origins out. -/
theorem c10_verdictForUrl_totality :
    ∀ (env : JSEnv) (pt : Option JsSetLike) (extraPolicy : List String)
      (raw : String),
      verdictForUrl env pt (mkExtraWhitelist env extraPolicy) raw ∈
        (["trusted", "trusted-extra", "not-evaluated"] : List String) ∧
      (env.parseOrigin raw = none →
        pt.elim True (fun t => t.hasMethod = false ∨ "" ∉ t.elems) →
        verdictForUrl env pt (mkExtraWhitelist env extraPolicy) raw =
          "not-evaluated") := by
  intro env pt extraPolicy raw
  constructor
  · simp only [verdictForUrl]
    split_ifs <;> simp
  · intro hparse hpt
    have horigin : urlOrigin env raw = "" := by
      simp [urlOrigin, hparse]
    have hextra : ("" : String) ∉ mkExtraWhitelist env extraPolicy := by
      simp [mkExtraWhitelist, List.mem_filter]
    cases pt with
    | none =>
      simp only [verdictForUrl, horigin]
      simp [hextra, defaultTrustedOrigins]
    | some t =>
      simp only [verdictForUrl, horigin]
      simp only [Option.elim] at hpt
      rcases hpt with hm | hn
      · simp [hm, hextra]
      · simp [hn, hextra]

/-- Witness for C10 on an unparseable URL with the default trusted set and an
empty policy whitelist. -/
theorem c10_witness :
    verdictForUrl toyEnv none (mkExtraWhitelist toyEnv []) "notaurl" =
      "not-evaluated" :=
  (c10_verdictForUrl_totality toyEnv none [] "notaurl").2 rfl trivial

end Check
